import Mathlib

/-!
# Verification of `cycfi::artist::picture` (Skia back end) and `cycfi::elements::pixmap`

Shallow embedding of `lib/impl/skia/picture.cpp` and of the inline members of
`lib/include/canvas/pixmap.hpp`.

Conventions of the embedding

* a C++ `float` is a rational number (every finite `float` is one); the only
  float operations the code performs are copies, `right - left` on a cull
  rectangle, the conversion `float(int)` and the implicit conversion
  `float -> int` at a call site, all of which are given explicitly below;
* a pointer that may be null is an `Option`;
* a member function that may throw, or dereference a null pointer, returns an
  `outcome`;
* the Skia objects the code manipulates (`SkBitmap`, `SkPicture`,
  `SkPictureRecorder`, `SkSurface`, ...) are records holding exactly the
  observable state the code reads back, with the behaviour the Skia API
  documents; what Skia decides on its own (file contents, format detection,
  allocation, snapshot and encoding success) is a parameter, `skia_host`.
-/

namespace cycfi.artist

/-! ## Scalars -/

/-- Values of the C++ type `float`. -/
abbrev float := ℚ

/-- Position of the highest set bit of `a` (`0` for `a < 2`), by halving at most
`fuel` times. -/
def bit_index : Nat → Nat → Nat
  | 0, _ => 0
  | fuel + 1, a => if a < 2 then 0 else bit_index fuel (a / 2) + 1

/-- The conversion `float(n)` of an `int`: exact while `|n| <= 2^24`; beyond
that the 24-bit significand keeps the leading 24 bits, rounding to nearest,
ties to even. -/
def float_of_int (n : Int) : float :=
  let a := n.natAbs
  if a ≤ 2 ^ 24 then (n : ℚ)
  else
    let e := bit_index 64 a - 23
    let q := a / 2 ^ e
    let r := a % 2 ^ e
    let half := 2 ^ (e - 1)
    let m := if half < r ∨ (r = half ∧ q % 2 = 1) then q + 1 else q
    if n < 0 then -((m * 2 ^ e : Nat) : ℚ) else ((m * 2 ^ e : Nat) : ℚ)

/-- The implicit conversion of a `float` argument to an `int` parameter:
truncation toward zero. -/
def int_of_float (f : float) : Int :=
  Int.tdiv f.num (f.den : Int)

/-! ## Geometry (`canvas/point.hpp`) -/

/-- Modelled from the spec: `point` of `canvas/point.hpp` (not part of the
sources at hand), a pair of `float` coordinates. -/
structure point where
  x : float
  y : float
  deriving DecidableEq

/-- Modelled from the spec: `extent` of `canvas/point.hpp` (not part of the
sources at hand), a width `x` and a height `y`, both `float`; `extent{}` is
the zero extent. -/
structure extent where
  x : float
  y : float
  deriving DecidableEq

/-- Conversion `point -> extent` used when `host_picture` is built from the
`point` argument of the constructor. -/
def extent.of_point (p : point) : extent := ⟨p.x, p.y⟩

/-! ## Skia objects -/

/-- `SkRect`: four `float` edges. -/
structure SkRect where
  fLeft : float
  fTop : float
  fRight : float
  fBottom : float
  deriving DecidableEq

/-- `SkRect::MakeWH`. -/
def SkRect.MakeWH (w h : float) : SkRect := ⟨0, 0, w, h⟩

/-- `SkRect::width`. -/
def SkRect.width (r : SkRect) : float := r.fRight - r.fLeft

/-- `SkRect::height`. -/
def SkRect.height (r : SkRect) : float := r.fBottom - r.fTop

/-- `SkBitmap`: integer dimensions and the pixel store (`none` while no pixels
are allocated, as for `SkBitmap{}`). -/
structure SkBitmap where
  width : Int
  height : Int
  fPixels : Option (List Nat)
  deriving DecidableEq

/-- The default-constructed bitmap `SkBitmap{}`. -/
def SkBitmap.empty : SkBitmap := ⟨0, 0, none⟩

/-- A primitive draw call issued on an `SkCanvas`. -/
inductive draw_op where
  | drawRect (rect : SkRect) (color : Nat)
  | drawBitmap (bitmap : SkBitmap) (left top : float)
  deriving DecidableEq

/-- `SkPicture`: the cull rectangle given when recording began and the recorded
draw calls, oldest first. -/
structure SkPicture where
  fCullRect : SkRect
  ops : List draw_op
  deriving DecidableEq

/-- `SkPicture::cullRect`. -/
def SkPicture.cullRect (p : SkPicture) : SkRect := p.fCullRect

/-! ## `host_picture` and `picture` -/

/-- Modelled from the spec: `host_picture` of `opaque.hpp` (not part of the
sources at hand), the variant over `extent` (SizeOnly), `sk_sp<SkPicture>`
(Vector) and `SkBitmap` (Raster) that `picture.cpp` visits. -/
inductive host_picture where
  | of_extent (e : extent)
  | of_picture (p : SkPicture)
  | of_bitmap (b : SkBitmap)
  deriving DecidableEq

/-- `std::is_same_v<T, extent>` for the alternative `that` held by the variant,
with the value when it holds. -/
def host_picture.as_extent : host_picture → Option extent
  | .of_extent e => some e
  | _ => none

/-- `std::is_same_v<T, sk_sp<SkPicture>>`, with the value when it holds. -/
def host_picture.as_picture : host_picture → Option SkPicture
  | .of_picture p => some p
  | _ => none

/-- `std::is_same_v<T, SkBitmap>`, with the value when it holds. -/
def host_picture.as_bitmap : host_picture → Option SkBitmap
  | .of_bitmap b => some b
  | _ => none

/-- `class picture`: the owned `_host`. -/
structure picture where
  _host : host_picture
  deriving DecidableEq

/-- `picture::picture(point size)`. -/
def picture.of_size (size : point) : picture :=
  { _host := host_picture.of_extent (extent.of_point size) }

/-- `picture::host_picture`. -/
def picture.host_picture (p : picture) : host_picture := p._host

/-- Which `return` statement of the `get_size` lambda produced the result. -/
inductive size_branch where
  | returned_extent
  | returned_cull_rect
  | returned_bitmap_size
  | returned_default
  deriving DecidableEq

/-- The `get_size` lambda of `picture::size`: the three `if constexpr` tests in
source order, then the trailing `return {}`. -/
def get_size (that : host_picture) : size_branch × extent :=
  match that.as_extent with
  | some e => (.returned_extent, e)
  | none =>
    match that.as_picture with
    | some p =>
      let r := p.cullRect
      (.returned_cull_rect, { x := r.width, y := r.height })
    | none =>
      match that.as_bitmap with
      | some b =>
        (.returned_bitmap_size, { x := float_of_int b.width, y := float_of_int b.height })
      | none => (.returned_default, { x := 0, y := 0 })

/-- `picture::size`. -/
def picture.size (p : picture) : extent := (get_size p._host).2

/-- How a call ends: it returns a value, it throws `std::runtime_error` with the
message `what`, or it dereferences a null pointer (undefined behaviour). -/
inductive outcome (α : Type) where
  | ok (value : α)
  | runtime_error (what : String)
  | null_dereference
  deriving DecidableEq

/-- Whether the call threw an exception. -/
def outcome.threw {α : Type} : outcome α → Bool
  | .runtime_error _ => true
  | _ => false

/-- Whether the call returned normally. -/
def outcome.returned {α : Type} : outcome α → Bool
  | .ok _ => true
  | _ => false

/-! ## The services Skia provides -/

/-- `SkData`: a byte buffer. -/
abbrev SkData := List Nat

/-- `SkColorType`, as far as the code names it. -/
inductive SkColorType where
  | kUnknown_SkColorType
  | kGray_8_SkColorType
  | kN32_SkColorType
  deriving DecidableEq

/-- `SkImageInfo`: dimensions and colour type. -/
structure SkImageInfo where
  width : Int
  height : Int
  colorType : SkColorType
  deriving DecidableEq

/-- `SkImageInfo::makeColorType`. -/
def SkImageInfo.makeColorType (info : SkImageInfo) (ct : SkColorType) : SkImageInfo :=
  { info with colorType := ct }

/-- `SkCodec::Result`. -/
inductive SkCodec.Result where
  | kSuccess
  | kIncompleteInput
  | kErrorInInput
  | kInvalidConversion
  | kInvalidScale
  | kInvalidParameters
  | kInvalidInput
  | kCouldNotRewind
  | kInternalError
  | kUnimplemented
  deriving DecidableEq

/-- `SkCodec`: a decoder bound to some encoded data; `fInfo` is what `getInfo`
reports, `fResult` and `fDecoded` are what `getPixels` returns and writes. -/
structure SkCodec where
  fInfo : SkImageInfo
  fResult : SkCodec.Result
  fDecoded : List Nat
  deriving DecidableEq

/-- `SkCodec::getInfo`. -/
def SkCodec.getInfo (codec : SkCodec) : SkImageInfo := codec.fInfo

/-- `SkCanvas`: the draw calls it has received, oldest first. -/
structure SkCanvas where
  ops : List draw_op
  deriving DecidableEq

/-- `SkCanvas::drawPicture`: plays the picture's draw calls back onto the
canvas, in their recorded order. -/
def SkCanvas.drawPicture (c : SkCanvas) (p : SkPicture) : SkCanvas :=
  { ops := c.ops ++ p.ops }

/-- `SkCanvas::drawBitmap`. -/
def SkCanvas.drawBitmap (c : SkCanvas) (b : SkBitmap) (left top : float) : SkCanvas :=
  { ops := c.ops ++ [draw_op.drawBitmap b left top] }

/-- `SkSurface`: a raster target of integer size with its canvas; a new surface
is blank (its canvas has received nothing). -/
structure SkSurface where
  width : Int
  height : Int
  canvas : SkCanvas
  deriving DecidableEq

/-- `SkImage`: an immutable copy of a surface's contents. -/
structure SkImage where
  width : Int
  height : Int
  ops : List draw_op
  deriving DecidableEq

/-- What Skia and the operating system decide on their own. -/
structure skia_host where
  /-- `SkCodec::MakeFromData` on non-null data; `none` when the format is not
  recognised. -/
  recognise : SkData → Option SkCodec
  /-- Whether pixel memory for a bitmap of that description can be allocated. -/
  can_alloc_pixels : SkImageInfo → Bool
  /-- Whether the pixel memory of a raster surface of that size can be
  allocated. -/
  can_alloc_surface : Int → Int → Bool
  /-- Whether a snapshot of that surface can be made. -/
  can_snapshot : SkSurface → Bool
  /-- `SkImage::encodeToData`: the PNG bytes, or null. -/
  encode : SkImage → Option SkData

/-- The part of the file system the code touches. -/
structure file_system where
  /-- Bytes read from a path; `none` when the path cannot be opened. -/
  files : String → Option SkData
  /-- Whether a path can be opened for writing. -/
  writable : String → Bool
  /-- The paths on which an open for writing was attempted, latest first. -/
  opened_for_writing : List String

/-- `SkData::MakeFromFileName`: null when the file cannot be opened. -/
def SkData.MakeFromFileName (fs : file_system) (path : String) : Option SkData :=
  fs.files path

/-- `SkCodec::MakeFromData`: null for null data, and for data whose format is
not recognised. -/
def SkCodec.MakeFromData (host : skia_host) : Option SkData → Option SkCodec
  | none => none
  | some data => host.recognise data

/-- `SkBitmap::tryAllocPixels(info)`: on success the bitmap takes the
description and owns zeroed pixel memory; on failure it is reset. -/
def SkBitmap.tryAllocPixels (host : skia_host) (_bitmap : SkBitmap) (info : SkImageInfo) :
    Bool × SkBitmap :=
  if host.can_alloc_pixels info then
    (true, { width := info.width, height := info.height,
             fPixels := some (List.replicate (info.width * info.height).toNat 0) })
  else
    (false, SkBitmap.empty)

/-- `SkCodec::getPixels(info, bitmap.getPixels(), bitmap.rowBytes())`: the
result code, and the bitmap whose pixel memory now holds what was decoded. -/
def SkCodec.getPixels (codec : SkCodec) (_info : SkImageInfo) (bitmap : SkBitmap) :
    SkCodec.Result × SkBitmap :=
  (codec.fResult, { bitmap with fPixels := some codec.fDecoded })

/-- `SkSurface::MakeRasterN32Premul(width, height)`: a blank surface when both
are greater than zero and the pixel memory can be allocated, else null. -/
def SkSurface.MakeRasterN32Premul (host : skia_host) (width height : Int) : Option SkSurface :=
  if 0 < width ∧ 0 < height ∧ host.can_alloc_surface width height = true then
    some { width := width, height := height, canvas := { ops := [] } }
  else none

/-- `SkSurface::makeImageSnapshot`. -/
def SkSurface.makeImageSnapshot (host : skia_host) (surface : SkSurface) : Option SkImage :=
  if host.can_snapshot surface then
    some { width := surface.width, height := surface.height, ops := surface.canvas.ops }
  else none

/-- `SkFILEWStream`: the file system after the open, the path, and whether the
stream is valid. -/
structure SkFILEWStream where
  fs : file_system
  path : String
  valid : Bool

/-- `SkFILEWStream::SkFILEWStream(path)`: opens the path for writing; a
successful open creates or truncates the file. -/
def SkFILEWStream.open (fs : file_system) (path : String) : SkFILEWStream :=
  if fs.writable path then
    { fs := { fs with
                files := fun q => if q = path then some [] else fs.files q
                opened_for_writing := path :: fs.opened_for_writing }
      path := path, valid := true }
  else
    { fs := { fs with opened_for_writing := path :: fs.opened_for_writing }
      path := path, valid := false }

/-- `SkFILEWStream::write`: appends to the file and reports success; on an
invalid stream it writes nothing and reports failure. -/
def SkFILEWStream.write (out : SkFILEWStream) (data : SkData) : Bool × SkFILEWStream :=
  if out.valid then
    (true, { out with
               fs := { out.fs with
                         files := fun q =>
                           if q = out.path then some ((out.fs.files q).getD [] ++ data)
                           else out.fs.files q } })
  else (false, out)

/-! ## `picture`: loading, saving, pixel access -/

/-- `picture::picture(std::string_view path_)`. -/
def picture.of_path (host : skia_host) (fs : file_system) (path_ : String) : outcome picture :=
  let bitmap0 := SkBitmap.empty
  let path := path_
  let fail : outcome picture := .runtime_error ("Error: Failed to load file: " ++ path)
  let data := SkData.MakeFromFileName fs path
  match SkCodec.MakeFromData host data with
  | none => fail
  | some codec =>
    let info := codec.getInfo.makeColorType .kN32_SkColorType
    let alloc := bitmap0.tryAllocPixels host info
    if !alloc.1 then fail
    else
      let decoded := codec.getPixels info alloc.2
      if decoded.1 ≠ SkCodec.Result.kSuccess then fail
      else .ok { _host := host_picture.of_bitmap decoded.2 }

/-- The `draw_picture` lambda of `picture::save_png`: the three `if constexpr`
blocks in source order. -/
def draw_picture (sk_canvas : SkCanvas) (that : host_picture) : SkCanvas :=
  let c1 := match that.as_extent with
    | some _ => sk_canvas
    | none => sk_canvas
  let c2 := match that.as_picture with
    | some p => c1.drawPicture p
    | none => c1
  match that.as_bitmap with
  | some b => c2.drawBitmap b 0 0
  | none => c2

/-- The temporary surface of `picture::save_png` after `std::visit(draw_picture,
*_host)`; `none` when `MakeRasterN32Premul` returned null. -/
def save_png_surface (host : skia_host) (p : picture) : Option SkSurface :=
  let size_ := p.size
  match SkSurface.MakeRasterN32Premul host (int_of_float size_.x) (int_of_float size_.y) with
  | none => none
  | some surface => some { surface with canvas := draw_picture surface.canvas p._host }

/-- What a call of `picture::save_png` leaves behind: the picture, the file
system, and how the call ended. -/
structure save_png_result where
  pict : picture
  fs : file_system
  result : outcome Unit

/-- `picture::save_png(std::string_view path_)`. -/
def picture.save_png (host : skia_host) (p : picture) (fs : file_system) (path_ : String) :
    save_png_result :=
  let path := path_
  let fail : save_png_result :=
    { pict := p, fs := fs, result := .runtime_error ("Error: Failed to save file: " ++ path) }
  match save_png_surface host p with
  | none => { pict := p, fs := fs, result := .null_dereference }
  | some surface =>
    match surface.makeImageSnapshot host with
    | none => fail
    | some image =>
      match host.encode image with
      | none => fail
      | some png =>
        let out := SkFILEWStream.open fs path
        let written := out.write png
        { pict := p, fs := written.2.fs, result := .ok () }

/-- `picture::pixels()`, const and non-const alike. -/
def picture.pixels (_p : picture) : Option (List Nat) := none

/-- `picture::bitmap_size`. -/
def picture.bitmap_size (_p : picture) : extent := { x := 0, y := 0 }

/-! ## `picture_context` -/

/-- `SkPictureRecorder`: the cull rectangle and the draw calls recorded so far. -/
structure SkPictureRecorder where
  fCullRect : SkRect
  fRecord : List draw_op
  fActivelyRecording : Bool
  deriving DecidableEq

/-- A default-constructed `SkPictureRecorder`. -/
def SkPictureRecorder.new : SkPictureRecorder :=
  { fCullRect := ⟨0, 0, 0, 0⟩, fRecord := [], fActivelyRecording := false }

/-- The canvas a `host_context_ptr` points to. -/
inductive canvas_ref where
  | recording_canvas_of_recorder
  deriving DecidableEq

/-- `host_context_ptr`, null or a canvas. -/
abbrev host_context_ptr := Option canvas_ref

/-- `SkPictureRecorder::beginRecording(width, height)`: starts an empty record
with cull rectangle `MakeWH(width, height)` and returns the recording canvas. -/
def SkPictureRecorder.beginRecording (_r : SkPictureRecorder) (width height : float) :
    SkPictureRecorder × host_context_ptr :=
  ({ fCullRect := SkRect.MakeWH width height, fRecord := [], fActivelyRecording := true },
   some canvas_ref.recording_canvas_of_recorder)

/-- `SkPictureRecorder::finishRecordingAsPicture`: the picture holding the
record, with the cull rectangle recording began with. -/
def SkPictureRecorder.finishRecordingAsPicture (r : SkPictureRecorder) :
    SkPictureRecorder × SkPicture :=
  ({ r with fActivelyRecording := false }, { fCullRect := r.fCullRect, ops := r.fRecord })

/-- `picture_context::state`. -/
structure picture_context.state where
  recorder : SkPictureRecorder
  recording_canvas : host_context_ptr
  deriving DecidableEq

/-- `class picture_context`; the reference member `_picture` is the picture the
caller passes to the destructor. -/
structure picture_context where
  _state : picture_context.state
  deriving DecidableEq

/-- `picture_context::picture_context(picture& pict)`. -/
def picture_context.begin_ (pict : picture) : outcome picture_context :=
  let state0 : picture_context.state :=
    { recorder := SkPictureRecorder.new, recording_canvas := none }
  let size := pict.size
  let began := state0.recorder.beginRecording size.x size.y
  .ok { _state := { recorder := began.1, recording_canvas := began.2 } }

/-- `picture_context::context`. -/
def picture_context.context (ctx : picture_context) : host_context_ptr :=
  ctx._state.recording_canvas

/-- A draw call issued by client code on the canvas `context()` returns: the
recorder appends it to its record. -/
def picture_context.draw (ctx : picture_context) (op : draw_op) : picture_context :=
  match ctx.context with
  | some canvas_ref.recording_canvas_of_recorder =>
    { _state := { ctx._state with
        recorder := { ctx._state.recorder with fRecord := ctx._state.recorder.fRecord ++ [op] } } }
  | none => ctx

/-- The draw calls `ops`, issued one after the other. -/
def picture_context.draw_all (ctx : picture_context) (ops : List draw_op) : picture_context :=
  ops.foldl picture_context.draw ctx

/-- `picture_context::~picture_context()`, given the picture `_picture` refers
to; the result is that picture afterwards. -/
def picture_context.end_ (ctx : picture_context) (_picture : picture) : picture :=
  { _host := host_picture.of_picture ctx._state.recorder.finishRecordingAsPicture.2 }

/-! ## Concrete scenarios -/

/-- The codec of a valid 640 x 480 JPEG. -/
def scenario.photo_codec : SkCodec :=
  { fInfo := { width := 640, height := 480, colorType := .kGray_8_SkColorType }
    fResult := .kSuccess
    fDecoded := List.replicate (640 * 480) 255 }

/-- A host on which every Skia service succeeds; data starting a JPEG is
recognised as the 640 x 480 photo. -/
def scenario.host : skia_host :=
  { recognise := fun data => if data = [255, 216, 255] then some scenario.photo_codec else none
    can_alloc_pixels := fun _ => true
    can_alloc_surface := fun _ _ => true
    can_snapshot := fun _ => true
    encode := fun _ => some [137, 80, 78, 71] }

/-- A host like `scenario.host` on which PNG encoding fails. -/
def scenario.host_encode_fails : skia_host :=
  { scenario.host with encode := fun _ => none }

/-- A file system holding `photo.jpg` and `notes.txt`, on which only `out.png`
can be opened for writing. -/
def scenario.fs : file_system :=
  { files := fun q =>
      if q = "photo.jpg" then some [255, 216, 255]
      else if q = "notes.txt" then some [104, 105]
      else none
    writable := fun q => decide (q = "out.png")
    opened_for_writing := [] }

/-- A filled square, drawn first. -/
def scenario.shape_A : draw_op := draw_op.drawRect ⟨0, 0, 50, 50⟩ 1

/-- A filled square overlapping `shape_A`, drawn second. -/
def scenario.shape_B : draw_op := draw_op.drawRect ⟨25, 25, 75, 75⟩ 2

/-- The session begun on a fresh 100 x 100 picture. -/
def scenario.session : picture_context :=
  { _state :=
      { recorder := { fCullRect := SkRect.MakeWH 100 100, fRecord := [],
                      fActivelyRecording := true }
        recording_canvas := some canvas_ref.recording_canvas_of_recorder } }

/-- The picture left by that session after `shape_A` then `shape_B` were
drawn. -/
def scenario.recorded : picture :=
  ((scenario.session.draw scenario.shape_A).draw scenario.shape_B).end_
    (picture.of_size { x := 100, y := 100 })

end cycfi.artist

/-! # `cycfi::elements::pixmap` -/

namespace cycfi.elements

/-- `host_pixmap_ptr`: null, or the address of a `host_pixmap`. -/
abbrev host_pixmap_ptr := Option Nat

/-- `class pixmap`: the handle `_pixmap`. -/
structure pixmap where
  _pixmap : host_pixmap_ptr
  deriving DecidableEq

/-- `pixmap::host_pixmap`. -/
def pixmap.host_pixmap (p : pixmap) : host_pixmap_ptr := p._pixmap

/-- The `pixmap` objects alive in a program, by address. -/
abbrev pixmap_store := Nat → Option pixmap

/-- `a.host_pixmap()` for the object at address `a`. -/
def pixmap_store.host_pixmap (s : pixmap_store) (a : Nat) : Option host_pixmap_ptr :=
  (s a).map pixmap.host_pixmap

/-- `pixmap::pixmap(pixmap&& rhs)`, building the new object at address `this`
from the object at address `rhs`. -/
def pixmap_store.move_construct (s : pixmap_store) (this rhs : Nat) : pixmap_store :=
  match s rhs with
  | none => s
  | some r =>
    let s1 := Function.update s this (some { _pixmap := r._pixmap })
    match s1 rhs with
    | none => s1
    | some r1 => Function.update s1 rhs (some { r1 with _pixmap := none })

/-- `pixmap::operator=(pixmap&& rhs)` on the objects at addresses `this` and
`rhs`. -/
def pixmap_store.move_assign (s : pixmap_store) (this rhs : Nat) : pixmap_store :=
  match s this, s rhs with
  | some t, some r =>
    let s1 := Function.update s this (some { t with _pixmap := r._pixmap })
    match s1 rhs with
    | none => s1
    | some r1 => Function.update s1 rhs (some { r1 with _pixmap := none })
  | _, _ => s

/-- No non-null host handle is held by two pixmaps. -/
def pixmap_store.exclusive (s : pixmap_store) : Prop :=
  ∀ (a b : Nat) (h : Nat), a ≠ b →
    s.host_pixmap a = some (some h) → s.host_pixmap b ≠ some (some h)

/-- A program with two pixmaps, at addresses 0 and 1, holding the handles 7
and 9. -/
def scenario.store : pixmap_store := fun i =>
  if i = 0 then some { _pixmap := some 7 }
  else if i = 1 then some { _pixmap := some 9 }
  else none

end cycfi.elements

/-! # Theorems -/

namespace cycfi.artist

/-! ## Auxiliary facts -/

theorem float_of_int_exact (n : Int) (h : n.natAbs ≤ 2 ^ 24) : float_of_int n = (n : ℚ) := by
  unfold float_of_int
  simp only [h, if_true]

theorem get_size_of_bitmap (b : SkBitmap) :
    (picture.mk (host_picture.of_bitmap b)).size
      = { x := float_of_int b.width, y := float_of_int b.height } := rfl

theorem get_size_of_picture (r : SkPicture) :
    (picture.mk (host_picture.of_picture r)).size
      = { x := r.fCullRect.fRight - r.fCullRect.fLeft,
          y := r.fCullRect.fBottom - r.fCullRect.fTop } := rfl

theorem draw_all_recorder (ops : List draw_op) (ctx : picture_context)
    (h : ctx.context = some canvas_ref.recording_canvas_of_recorder) :
    (ctx.draw_all ops)._state.recorder.fCullRect = ctx._state.recorder.fCullRect ∧
      (ctx.draw_all ops)._state.recorder.fRecord = ctx._state.recorder.fRecord ++ ops := by
  induction ops generalizing ctx with
  | nil => simp [picture_context.draw_all]
  | cons op rest ih =>
    have hstep : (ctx.draw op).context = some canvas_ref.recording_canvas_of_recorder := by
      simp only [picture_context.context] at h
      simp [picture_context.draw, picture_context.context, h]
    have hrec := ih (ctx.draw op) hstep
    have hd : (ctx.draw op)._state.recorder.fCullRect = ctx._state.recorder.fCullRect ∧
        (ctx.draw op)._state.recorder.fRecord = ctx._state.recorder.fRecord ++ [op] := by
      simp only [picture_context.context] at h
      simp [picture_context.draw, picture_context.context, h]
    have hfold : ctx.draw_all (op :: rest) = (ctx.draw op).draw_all rest := by
      simp [picture_context.draw_all]
    rw [hfold, hrec.1, hrec.2, hd.1, hd.2]
    simp

/-! ## The claims -/

/-- C2 (as stated, refuted): the picture loaded from a valid 640 x 480 JPEG has
size `(640, 480)`, yet `pixels()` returns null and `bitmap_size()` the zero
extent, so no view of 640 x 480 pixels is handed out. -/
theorem loaded_photo_has_no_pixel_view :
    ∃ p : picture, picture.of_path scenario.host scenario.fs "photo.jpg" = outcome.ok p ∧
      p.size = { x := 640, y := 480 } ∧ p.pixels = none ∧
      p.bitmap_size = { x := 0, y := 0 } := by
  refine ⟨{ _host := host_picture.of_bitmap
              { width := 640, height := 480, fPixels := some scenario.photo_codec.fDecoded } },
    ?_, ?_, rfl, rfl⟩
  · have hres : scenario.photo_codec.fResult = SkCodec.Result.kSuccess := rfl
    simp [picture.of_path, SkData.MakeFromFileName, SkCodec.MakeFromData, scenario.fs,
      scenario.host, SkBitmap.tryAllocPixels, SkCodec.getPixels, SkCodec.getInfo,
      SkImageInfo.makeColorType, hres]
    exact ⟨rfl, rfl⟩
  · rw [get_size_of_bitmap]
    simp [float_of_int]

/-- C2 (amended): for a picture successfully created from a file that decodes
to a `w x h` image with `w, h > 0`, `size()` is the extent
`(float(w), float(h))`, which is `(w, h)` itself whenever `w, h <= 2^24`, while
`pixels()` returns null and `bitmap_size()` the zero extent. -/
theorem loaded_picture_size_and_pixels (host : skia_host) (fs : file_system) (path : String)
    (p : picture) (codec : SkCodec)
    (hcodec : SkCodec.MakeFromData host (SkData.MakeFromFileName fs path) = some codec)
    (hload : picture.of_path host fs path = outcome.ok p)
    (hw : 0 < codec.getInfo.width) (hh : 0 < codec.getInfo.height) :
    p.size = { x := float_of_int codec.getInfo.width, y := float_of_int codec.getInfo.height } ∧
      (codec.getInfo.width ≤ 2 ^ 24 → codec.getInfo.height ≤ 2 ^ 24 →
        p.size = { x := (codec.getInfo.width : ℚ), y := (codec.getInfo.height : ℚ) }) ∧
      p.pixels = none ∧ p.bitmap_size = { x := 0, y := 0 } := by
  have hsize : p.size
      = { x := float_of_int codec.getInfo.width, y := float_of_int codec.getInfo.height } := by
    unfold picture.of_path at hload
    simp only [hcodec] at hload
    by_cases halloc : host.can_alloc_pixels (codec.getInfo.makeColorType .kN32_SkColorType) = true
    · simp only [SkBitmap.tryAllocPixels, halloc, if_true, Bool.not_true] at hload
      by_cases hres : codec.fResult = SkCodec.Result.kSuccess
      · simp [SkCodec.getPixels, hres] at hload
        rw [← hload]
        simp [picture.size, get_size, host_picture.as_extent, host_picture.as_picture,
          host_picture.as_bitmap, SkImageInfo.makeColorType]
      · simp [SkCodec.getPixels, hres] at hload
    · simp [SkBitmap.tryAllocPixels, halloc] at hload
  refine ⟨hsize, ?_, rfl, rfl⟩
  intro hw24 hh24
  rw [hsize, float_of_int_exact, float_of_int_exact]
  · omega
  · omega

/-- Witness for C2 (amended): the 640 x 480 photo. -/
theorem loaded_picture_size_and_pixels_witness :
    ∃ p : picture, picture.of_path scenario.host scenario.fs "photo.jpg" = outcome.ok p ∧
      (p.size = { x := float_of_int 640, y := float_of_int 480 } ∧
        ((640 : Int) ≤ 2 ^ 24 → (480 : Int) ≤ 2 ^ 24 →
          p.size = { x := ((640 : Int) : ℚ), y := ((480 : Int) : ℚ) }) ∧
        p.pixels = none ∧ p.bitmap_size = { x := 0, y := 0 }) := by
  have hload : picture.of_path scenario.host scenario.fs "photo.jpg"
      = outcome.ok (picture.mk (host_picture.of_bitmap
          { width := 640, height := 480, fPixels := some scenario.photo_codec.fDecoded })) := by
    have hres : scenario.photo_codec.fResult = SkCodec.Result.kSuccess := rfl
    simp [picture.of_path, SkData.MakeFromFileName, SkCodec.MakeFromData, scenario.fs,
      scenario.host, SkBitmap.tryAllocPixels, SkCodec.getPixels, SkCodec.getInfo,
      SkImageInfo.makeColorType, hres]
    exact ⟨rfl, rfl⟩
  have hcodec : SkCodec.MakeFromData scenario.host
      (SkData.MakeFromFileName scenario.fs "photo.jpg") = some scenario.photo_codec := by
    simp [SkData.MakeFromFileName, SkCodec.MakeFromData, scenario.fs, scenario.host]
  exact ⟨_, hload, loaded_picture_size_and_pixels scenario.host scenario.fs "photo.jpg" _
    scenario.photo_codec hcodec hload (by decide) (by decide)⟩

/-- C3: whatever variant a picture `p` holds, a recording session on it can be
begun, and once the session is destroyed (after any draw calls `ops`, and
whatever the picture `now` holds at that moment) the picture holds the Vector
variant, the recording's bounding extent is the value `p.size()` had when the
session began, so `size()` is unchanged, and `pixels()` returns null. -/
theorem recording_session_leaves_vector (p : picture) :
    ∃ ctx : picture_context, picture_context.begin_ p = outcome.ok ctx ∧
      ∀ (ops : List draw_op) (now : picture),
        (∃ rec : SkPicture,
            ((ctx.draw_all ops).end_ now)._host = host_picture.of_picture rec ∧
            ({ x := rec.cullRect.width, y := rec.cullRect.height } : extent) = p.size) ∧
          ((ctx.draw_all ops).end_ now).size = p.size ∧
          ((ctx.draw_all ops).end_ now).pixels = none := by
  refine ⟨_, rfl, ?_⟩
  intro ops now
  obtain ⟨hcull, -⟩ := draw_all_recorder ops
    { _state := { recorder := (SkPictureRecorder.new.beginRecording p.size.x p.size.y).1
                  recording_canvas := (SkPictureRecorder.new.beginRecording p.size.x p.size.y).2 } }
    rfl
  have hext : ∀ r : SkRect, r = SkRect.MakeWH p.size.x p.size.y →
      ({ x := r.width, y := r.height } : extent) = p.size := by
    intro r hr
    subst hr
    simp [SkRect.MakeWH, SkRect.width, SkRect.height]
  refine ⟨⟨_, rfl, ?_⟩, ?_, rfl⟩
  · apply hext
    simp only [SkPictureRecorder.finishRecordingAsPicture, SkPicture.cullRect]
    exact hcull
  · simp only [picture_context.end_]
    rw [get_size_of_picture]
    simp only [SkPictureRecorder.finishRecordingAsPicture]
    have := hext _ hcull
    simpa [SkRect.width, SkRect.height] using this

/-- C4: `picture(path)` throws (`Error: Failed to load file: <path>`) exactly
when the path cannot be opened, or its data is not a recognised image format,
or the pixel buffer cannot be allocated, or decoding the pixels does not end
in `kSuccess`; in every other case it returns a picture holding the Raster
variant. A path that cannot be opened, such as `/nonexistent/path.png`, throws
and yields no picture. -/
theorem load_fails_exactly_on_decode_errors (host : skia_host) (fs : file_system)
    (path : String) :
    (picture.of_path host fs path
        = outcome.runtime_error ("Error: Failed to load file: " ++ path) ↔
      (fs.files path = none ∨
        (∃ data, fs.files path = some data ∧ host.recognise data = none) ∨
        (∃ data codec, fs.files path = some data ∧ host.recognise data = some codec ∧
          host.can_alloc_pixels (codec.getInfo.makeColorType .kN32_SkColorType) = false) ∨
        (∃ data codec, fs.files path = some data ∧ host.recognise data = some codec ∧
          codec.fResult ≠ SkCodec.Result.kSuccess))) ∧
    (picture.of_path host fs path
        ≠ outcome.runtime_error ("Error: Failed to load file: " ++ path) →
      ∃ b : SkBitmap, picture.of_path host fs path
        = outcome.ok { _host := host_picture.of_bitmap b }) ∧
    (fs.files "/nonexistent/path.png" = none →
      picture.of_path host fs "/nonexistent/path.png"
        = outcome.runtime_error "Error: Failed to load file: /nonexistent/path.png") := by
  refine ⟨?_, ?_, ?_⟩
  · unfold picture.of_path
    cases hdata : fs.files path with
    | none => simp [SkData.MakeFromFileName, SkCodec.MakeFromData, hdata]
    | some data =>
      cases hrec : host.recognise data with
      | none => simp [SkData.MakeFromFileName, SkCodec.MakeFromData, hdata, hrec]
      | some codec =>
        by_cases halloc :
            host.can_alloc_pixels (codec.getInfo.makeColorType .kN32_SkColorType) = true
        · by_cases hres : codec.fResult = SkCodec.Result.kSuccess
          · simp [SkData.MakeFromFileName, SkCodec.MakeFromData, hdata, hrec,
              SkBitmap.tryAllocPixels, SkCodec.getPixels, halloc, hres]
          · simp [SkData.MakeFromFileName, SkCodec.MakeFromData, hdata, hrec,
              SkBitmap.tryAllocPixels, SkCodec.getPixels, halloc, hres]
        · simp [SkData.MakeFromFileName, SkCodec.MakeFromData, hdata, hrec,
            SkBitmap.tryAllocPixels, halloc]
  · unfold picture.of_path
    cases hdata : fs.files path with
    | none => simp [SkData.MakeFromFileName, SkCodec.MakeFromData, hdata]
    | some data =>
      cases hrec : host.recognise data with
      | none => simp [SkData.MakeFromFileName, SkCodec.MakeFromData, hdata, hrec]
      | some codec =>
        by_cases halloc :
            host.can_alloc_pixels (codec.getInfo.makeColorType .kN32_SkColorType) = true
        · by_cases hres : codec.fResult = SkCodec.Result.kSuccess
          · simp [SkData.MakeFromFileName, SkCodec.MakeFromData, hdata, hrec,
              SkBitmap.tryAllocPixels, SkCodec.getPixels, halloc, hres]
          · simp [SkData.MakeFromFileName, SkCodec.MakeFromData, hdata, hrec,
              SkBitmap.tryAllocPixels, SkCodec.getPixels, halloc, hres]
        · simp [SkData.MakeFromFileName, SkCodec.MakeFromData, hdata, hrec,
            SkBitmap.tryAllocPixels, halloc]
  · intro hnone
    simp [picture.of_path, SkData.MakeFromFileName, SkCodec.MakeFromData, hnone]

/-- Witness for C4: on the scenario file system `/nonexistent/path.png` cannot
be opened, and loading it throws. -/
theorem load_fails_exactly_on_decode_errors_witness :
    scenario.fs.files "/nonexistent/path.png" = none ∧
      picture.of_path scenario.host scenario.fs "/nonexistent/path.png"
        = outcome.runtime_error "Error: Failed to load file: /nonexistent/path.png" := by
  have hnone : scenario.fs.files "/nonexistent/path.png" = none := by
    simp [scenario.fs]
  exact ⟨hnone,
    (load_fails_exactly_on_decode_errors scenario.host scenario.fs "/nonexistent/path.png").2.2
      hnone⟩

/-- C6 (as stated, refuted): constructing a `picture_context` on a picture of
size `(0, 0)`, or of size `(-5, 10)`, returns normally. -/
theorem begin_on_empty_extent_returns :
    (picture_context.begin_ (picture.of_size { x := 0, y := 0 })).returned = true ∧
      (picture_context.begin_ (picture.of_size { x := -5, y := 10 })).returned = true ∧
      (picture_context.begin_ (picture.of_size { x := 0, y := 0 })).threw = false ∧
      (picture_context.begin_ (picture.of_size { x := -5, y := 10 })).threw = false :=
  ⟨rfl, rfl, rfl, rfl⟩

/-- C6 (amended): constructing a `picture_context` never fails, whatever the
size of the picture (zero and negative widths and heights included): it
returns a session whose recorder is recording with the cull rectangle
`(0, 0, size.x, size.y)` and whose `context()` is a non-null canvas. -/
theorem begin_never_fails (p : picture) :
    ∃ ctx : picture_context, picture_context.begin_ p = outcome.ok ctx ∧
      ctx._state.recorder.fCullRect = SkRect.MakeWH p.size.x p.size.y ∧
      ctx._state.recorder.fActivelyRecording = true ∧
      ctx._state.recorder.fRecord = [] ∧
      ctx.context ≠ none :=
  ⟨_, rfl, rfl, rfl, rfl, by simp [picture_context.context, SkPictureRecorder.beginRecording]⟩

theorem save_png_returns (host : skia_host) (p : picture) (fs : file_system) (path : String)
    (surface : SkSurface) (image : SkImage) (png : SkData)
    (hs : save_png_surface host p = some surface)
    (hi : SkSurface.makeImageSnapshot host surface = some image)
    (he : host.encode image = some png) :
    picture.save_png host p fs path
      = { pict := p, fs := ((SkFILEWStream.open fs path).write png).2.fs, result := outcome.ok () } := by
  unfold picture.save_png
  simp only [hs, hi, he]

theorem save_png_surface_100 (host : skia_host) (h : host.can_alloc_surface 100 100 = true) :
    save_png_surface host (picture.of_size { x := 100, y := 100 })
      = some { width := 100, height := 100, canvas := { ops := [] } } := by
  have hint : int_of_float 100 = 100 := by simp [int_of_float]
  simp [save_png_surface, picture.of_size, picture.size, get_size, host_picture.as_extent,
    extent.of_point, hint, SkSurface.MakeRasterN32Premul, h, draw_picture,
    host_picture.as_picture, host_picture.as_bitmap]

/-- C7 (the code at the failing input): saving a 100 x 100 picture to a path
that cannot be opened for writing returns normally; nothing is thrown and the
file is not written. -/
theorem save_to_unwritable_path_returns_normally :
    scenario.fs.writable "/readonly/out.png" = false ∧
      (picture.save_png scenario.host (picture.of_size { x := 100, y := 100 }) scenario.fs
        "/readonly/out.png").result = outcome.ok () ∧
      (picture.save_png scenario.host (picture.of_size { x := 100, y := 100 }) scenario.fs
        "/readonly/out.png").fs.files "/readonly/out.png" = none := by
  have hsave := save_png_returns scenario.host (picture.of_size { x := 100, y := 100 })
    scenario.fs "/readonly/out.png" _ _ [137, 80, 78, 71]
    (save_png_surface_100 scenario.host rfl) rfl rfl
  refine ⟨by simp [scenario.fs], ?_, ?_⟩
  · rw [hsave]
  · rw [hsave]
    simp [SkFILEWStream.open, SkFILEWStream.write, scenario.fs]

/-- C8 (the code at the failing input): saving a picture created with extent
`(0, 0)` gets a null surface from `MakeRasterN32Premul` and dereferences it;
nothing is thrown. -/
theorem save_of_empty_extent_dereferences_null :
    save_png_surface scenario.host (picture.of_size { x := 0, y := 0 }) = none ∧
      (picture.save_png scenario.host (picture.of_size { x := 0, y := 0 }) scenario.fs
        "out.png").result = outcome.null_dereference ∧
      (picture.save_png scenario.host (picture.of_size { x := 0, y := 0 }) scenario.fs
        "out.png").result.threw = false := by
  have hint : int_of_float 0 = 0 := by simp [int_of_float]
  have hsurf : save_png_surface scenario.host (picture.of_size { x := 0, y := 0 }) = none := by
    simp [save_png_surface, picture.of_size, picture.size, get_size, host_picture.as_extent,
      extent.of_point, hint, SkSurface.MakeRasterN32Premul]
  refine ⟨hsurf, ?_, ?_⟩
  · simp [picture.save_png, hsurf]
  · simp [picture.save_png, hsurf, outcome.threw]

/-- C9: whenever `save_png` fails (throws), the picture is what it was before
the call and the file system is untouched: no file has changed, the
destination included, and no open for writing was attempted; the destination
is opened only after the PNG data exists. -/
theorem failed_save_leaves_picture_and_files (host : skia_host) (p : picture)
    (fs : file_system) (path : String)
    (hfail : (picture.save_png host p fs path).result.threw = true) :
    (picture.save_png host p fs path).pict = p ∧
      (picture.save_png host p fs path).fs = fs ∧
      (picture.save_png host p fs path).fs.files path = fs.files path ∧
      (picture.save_png host p fs path).fs.opened_for_writing = fs.opened_for_writing := by
  have key : (picture.save_png host p fs path).pict = p ∧
      (picture.save_png host p fs path).fs = fs := by
    unfold picture.save_png at hfail ⊢
    cases hs : save_png_surface host p with
    | none => simp
    | some surface =>
      cases hi : SkSurface.makeImageSnapshot host surface with
      | none => simp [hi]
      | some image =>
        cases he : host.encode image with
        | none => simp [hi, he]
        | some png => simp [hs, hi, he, outcome.threw] at hfail
  exact ⟨key.1, key.2, by rw [key.2], by rw [key.2]⟩

/-- Witness for C9: on a host whose PNG encoder fails, saving the recorded
picture over the existing `photo.jpg` throws and leaves picture and file as
they were. -/
theorem failed_save_leaves_picture_and_files_witness :
    (picture.save_png scenario.host_encode_fails scenario.recorded scenario.fs
        "photo.jpg").result.threw = true ∧
      (picture.save_png scenario.host_encode_fails scenario.recorded scenario.fs
        "photo.jpg").pict = scenario.recorded ∧
      (picture.save_png scenario.host_encode_fails scenario.recorded scenario.fs
        "photo.jpg").fs.files "photo.jpg" = some [255, 216, 255] := by
  have hsize : scenario.recorded.size = { x := 100, y := 100 } := by
    simp [scenario.recorded, picture_context.end_, get_size_of_picture,
      SkPictureRecorder.finishRecordingAsPicture, picture_context.draw, picture_context.context,
      scenario.session, SkRect.MakeWH]
  have hint : int_of_float 100 = 100 := by simp [int_of_float]
  have hres : (picture.save_png scenario.host_encode_fails scenario.recorded scenario.fs
      "photo.jpg").result = outcome.runtime_error "Error: Failed to save file: photo.jpg" := by
    simp [picture.save_png, save_png_surface, hsize, hint, SkSurface.MakeRasterN32Premul,
      scenario.host_encode_fails, scenario.host, SkSurface.makeImageSnapshot]
  have h := failed_save_leaves_picture_and_files scenario.host_encode_fails scenario.recorded
    scenario.fs "photo.jpg" (by rw [hres]; rfl)
  refine ⟨by rw [hres]; rfl, h.1, ?_⟩
  rw [h.2.2.1]
  simp [scenario.fs]

end cycfi.artist

namespace cycfi.elements

theorem move_assign_eq (s : pixmap_store) (a b : Nat) (pa pb : pixmap) (hab : a ≠ b)
    (ha : s a = some pa) (hb : s b = some pb) :
    s.move_assign a b
      = Function.update (Function.update s a (some { _pixmap := pb._pixmap })) b
          (some { _pixmap := none }) := by
  have hba : b ≠ a := fun h => hab h.symm
  simp [pixmap_store.move_assign, ha, hb, Function.update, hba]

theorem move_construct_eq (s : pixmap_store) (c b : Nat) (pb : pixmap) (hcb : c ≠ b)
    (hb : s b = some pb) :
    s.move_construct c b
      = Function.update (Function.update s c (some { _pixmap := pb._pixmap })) b
          (some { _pixmap := none }) := by
  have hbc : b ≠ c := fun h => hcb h.symm
  simp [pixmap_store.move_construct, hb, Function.update, hbc]

theorem exclusive_after_move (s : pixmap_store) (a b : Nat) (pb : pixmap) (hab : a ≠ b)
    (hb : s b = some pb) (hex : s.exclusive) :
    pixmap_store.exclusive
      (Function.update (Function.update s a (some { _pixmap := pb._pixmap })) b
        (some { _pixmap := none })) := by
  have hbh : s.host_pixmap b = some pb._pixmap := by
    simp [pixmap_store.host_pixmap, hb, pixmap.host_pixmap]
  intro x y h hxy hx hy
  by_cases hxb : x = b
  · subst hxb
    simp [pixmap_store.host_pixmap, pixmap.host_pixmap] at hx
  by_cases hyb : y = b
  · subst hyb
    simp [pixmap_store.host_pixmap, pixmap.host_pixmap] at hy
  by_cases hxa : x = a
  · subst hxa
    have hya : y ≠ x := fun e => hxy e.symm
    simp [pixmap_store.host_pixmap, pixmap.host_pixmap, Function.update, hxb] at hx
    simp only [pixmap_store.host_pixmap, Function.update, hyb, hya, dite_false] at hy
    exact hex b y h (fun e => hyb e.symm) (by rw [hbh, hx]) hy
  · by_cases hya : y = a
    · subst hya
      simp [pixmap_store.host_pixmap, pixmap.host_pixmap, Function.update, hyb] at hy
      simp only [pixmap_store.host_pixmap, Function.update, hxb, hxa, dite_false] at hx
      exact hex x b h hxb hx (by rw [hbh, hy])
    · simp only [pixmap_store.host_pixmap, Function.update, hxb, hxa, dite_false] at hx
      simp only [pixmap_store.host_pixmap, Function.update, hyb, hya, dite_false] at hy
      exact hex x y h hxy hx hy

/-- C10: for distinct pixmaps `a` and `b`, after `a = std::move(b)`, and
likewise after move-constructing a new pixmap `c` from `b`, the target's
`host_pixmap()` is the handle `b` held before and `b.host_pixmap()` is null;
and if no non-null handle was held by two pixmaps before the move, none is
held by two pixmaps after it. -/
theorem move_keeps_handles_exclusive (s : pixmap_store) (a b c : Nat) (pa pb : pixmap)
    (hab : a ≠ b) (hcb : c ≠ b) (ha : s a = some pa) (hb : s b = some pb) :
    ((s.move_assign a b).host_pixmap a = some pb.host_pixmap ∧
      (s.move_assign a b).host_pixmap b = some none ∧
      (s.exclusive → (s.move_assign a b).exclusive)) ∧
    ((s.move_construct c b).host_pixmap c = some pb.host_pixmap ∧
      (s.move_construct c b).host_pixmap b = some none ∧
      (s.exclusive → (s.move_construct c b).exclusive)) := by
  have hba : b ≠ a := fun h => hab h.symm
  have hbc : b ≠ c := fun h => hcb h.symm
  rw [move_assign_eq s a b pa pb hab ha hb, move_construct_eq s c b pb hcb hb]
  refine ⟨⟨?_, ?_, exclusive_after_move s a b pb hab hb⟩,
    ⟨?_, ?_, exclusive_after_move s c b pb hcb hb⟩⟩
  · simp [pixmap_store.host_pixmap, pixmap.host_pixmap, Function.update, hab]
  · simp [pixmap_store.host_pixmap, pixmap.host_pixmap, Function.update]
  · simp [pixmap_store.host_pixmap, pixmap.host_pixmap, Function.update, hcb]
  · simp [pixmap_store.host_pixmap, pixmap.host_pixmap, Function.update]

theorem scenario_store_exclusive : scenario.store.exclusive := by
  intro x y h hxy hx hy
  by_cases hx0 : x = 0
  · subst hx0
    have hy0 : y ≠ 0 := fun e => hxy e.symm
    simp [pixmap_store.host_pixmap, pixmap.host_pixmap, scenario.store] at hx
    subst hx
    by_cases hy1 : y = 1
    · subst hy1
      simp [pixmap_store.host_pixmap, pixmap.host_pixmap, scenario.store] at hy
    · simp [pixmap_store.host_pixmap, scenario.store, hy0, hy1] at hy
  · by_cases hx1 : x = 1
    · subst hx1
      have hy1 : y ≠ 1 := fun e => hxy e.symm
      simp [pixmap_store.host_pixmap, pixmap.host_pixmap, scenario.store] at hx
      subst hx
      by_cases hy0 : y = 0
      · subst hy0
        simp [pixmap_store.host_pixmap, pixmap.host_pixmap, scenario.store] at hy
      · simp [pixmap_store.host_pixmap, scenario.store, hy0, hy1] at hy
    · simp [pixmap_store.host_pixmap, scenario.store, hx0, hx1] at hx

/-- Witness for C10: with pixmaps at 0 and 1 holding handles 7 and 9, moving 1
into 0, or into a new pixmap at 2, hands over handle 9, nulls the source and
keeps the handles exclusive. -/
theorem move_keeps_handles_exclusive_witness :
    ((scenario.store.move_assign 0 1).host_pixmap 0 = some (some 9) ∧
      (scenario.store.move_assign 0 1).host_pixmap 1 = some none ∧
      (scenario.store.move_assign 0 1).exclusive) ∧
    ((scenario.store.move_construct 2 1).host_pixmap 2 = some (some 9) ∧
      (scenario.store.move_construct 2 1).host_pixmap 1 = some none ∧
      (scenario.store.move_construct 2 1).exclusive) := by
  have h := move_keeps_handles_exclusive scenario.store 0 1 2 { _pixmap := some 7 }
    { _pixmap := some 9 } (by decide) (by decide) rfl rfl
  exact ⟨⟨h.1.1, h.1.2.1, h.1.2.2 scenario_store_exclusive⟩,
    ⟨h.2.1, h.2.2.1, h.2.2.2 scenario_store_exclusive⟩⟩

end cycfi.elements
